import Mathlib

/-!
Shallow embedding of the configuration / secrets resolution core of the
`fastapi-backend-template` repository, together with theorems settling the
frozen claims about its specification.

The embedded code lives in:
* `src/backend/app/core/config_sources.py` (`parse_env_sequence`,
  `_get_directory_tomls`, `verify_toml_path`, `get_app_environment`)
* `src/backend/app/core/secrets.py` (`_verify_pem_headers`, `PortNumber`,
  `create_redis_url`, `SecretTomlSettings.settings_customise_sources`)
* `src/app/core/config_sources.py` (`_parse_env_sequence`,
  `_EnvSource.prepare_field_value`, `EnvConfig`, `TomlConfig`)
* `src/app/core/configs.py` (`AppSettings.settings_customise_sources`)
* `src/app/core/settings.py` (`know_app_settings`, `get_app_settings`)

Python strings are modelled as Lean `String`, with the relevant `str`
methods (`strip`, `split`, `startswith`, `endswith`) re-implemented
faithfully over the underlying character lists.  Filesystem state is
modelled as the list of regular file names present in a directory.
-/

namespace FastapiBackendTemplate

/-! ## Python string primitives -/

/-- Whitespace for `str.strip`: space, tab, newline, carriage return,
vertical tab, form feed (the ASCII whitespace set; Python additionally
strips non-ASCII unicode spaces, which never occur in the markers or
messages involved here). -/
def pyIsSpace (c : Char) : Bool :=
  c = ' ' || c = '\t' || c = '\n' || c = '\r' || c = '\x0b' || c = '\x0c'

/-- `str.lstrip()` on the character list. -/
def pyLstripL (l : List Char) : List Char :=
  l.dropWhile pyIsSpace

/-- `str.rstrip()` on the character list. -/
def pyRstripL (l : List Char) : List Char :=
  (l.reverse.dropWhile pyIsSpace).reverse

/-- `str.strip()` on the character list (trim both ends). -/
def pyStripL (l : List Char) : List Char :=
  pyLstripL (pyRstripL l)

/-- Python `str.strip()`. -/
def pyStrip (s : String) : String :=
  ⟨pyStripL s.data⟩

/-- Python `str.rstrip()`. -/
def pyRstrip (s : String) : String :=
  ⟨pyRstripL s.data⟩

/-- Python `s.startswith(m)`: `m` is a prefix of `s`. -/
def pyStartswith (s m : String) : Bool :=
  m.data.isPrefixOf s.data

/-- Python `s.endswith(m)`: `m` is a suffix of `s`. -/
def pyEndswith (s m : String) : Bool :=
  m.data.isSuffixOf s.data

/-- Python `s.split(sep)` for a one-character separator, on character
lists: splits at every occurrence of the separator, keeping empty pieces;
the empty string yields one empty piece. -/
def pySplitL (sep : Char) : List Char → List (List Char)
  | [] => [[]]
  | c :: rest =>
      if c = sep then [] :: pySplitL sep rest
      else
        match pySplitL sep rest with
        | [] => [[c]]
        | h :: t => (c :: h) :: t

/-- Python `s.split(sep)` for a one-character separator. -/
def pySplit (s : String) (sep : Char) : List String :=
  (pySplitL sep s.data).map String.mk

/-! ## `_verify_pem_headers` (src/backend/app/core/secrets.py, lines 26-32)

```python
def _verify_pem_headers(value: SecretStr) -> SecretStr:
    pem = value.get_secret_value()
    if not (pem.startswith('-----BEGIN') and pem.strip().endswith('-----END')):
        raise ValueError(
            "PEM key must start with '-----BEGIN' and end with '-----END'."
        )
    return value
```

A raised `ValueError` becomes `Except.error`; pydantic wraps it in a
`ValidationError` located at the offending field. -/

def pemBeginMarker : String := "-----BEGIN"

def pemEndMarker : String := "-----END"

def _verify_pem_headers (pem : String) : Except String String :=
  if !(pyStartswith pem pemBeginMarker && pyEndswith (pyStrip pem) pemEndMarker) then
    .error ("PEM key must start with \x27-----BEGIN\x27 and end with \x27-----END\x27.")
  else
    .ok pem

/-! ### Lemmas about stripping and the PEM markers -/

/-- Dropping leading whitespace does not change whether a list of
non-whitespace characters is a suffix. -/
theorem suffix_dropWhile_space_iff (l m : List Char)
    (hm : ∀ c ∈ m, ¬ pyIsSpace c = true) :
    (m <:+ l.dropWhile pyIsSpace) ↔ m <:+ l := by
  induction l with
  | nil => simp
  | cons c t ih =>
      by_cases hc : pyIsSpace c = true
      · rw [List.dropWhile_cons_of_pos hc, List.suffix_cons_iff, ih]
        constructor
        · exact Or.inr
        · rintro (rfl | h)
          · exact absurd hc (hm c (List.mem_cons_self c t))
          · exact h
      · rw [List.dropWhile_cons_of_neg hc]

/-- Appending whitespace-only characters does not change `rstrip`. -/
theorem pyRstripL_append_space (s ws : List Char)
    (hws : ws.all pyIsSpace = true) :
    pyRstripL (s ++ ws) = pyRstripL s := by
  unfold pyRstripL
  rw [List.reverse_append, List.dropWhile_append]
  have h : ws.reverse.dropWhile pyIsSpace = [] := by
    rw [List.dropWhile_eq_nil_iff]
    intro x hx
    exact List.all_eq_true.mp hws x (List.mem_reverse.mp hx)
  simp [h]

/-- A non-whitespace list is a prefix of `s ++ ws` (with `ws` whitespace
only) exactly when it is a prefix of `s`. -/
theorem prefix_append_space_iff (s ws m : List Char)
    (hm : ∀ c ∈ m, ¬ pyIsSpace c = true)
    (hws : ws.all pyIsSpace = true) :
    (m <+: s ++ ws) ↔ m <+: s := by
  constructor
  · induction s generalizing m with
    | nil =>
        intro h
        have hnil : m = [] := by
          cases m with
          | nil => rfl
          | cons a m' =>
              exfalso
              have ha : a ∈ ws := h.subset (List.mem_cons_self a m')
              exact hm a (List.mem_cons_self a m') (List.all_eq_true.mp hws a ha)
        simp [hnil]
    | cons c t ih =>
        intro h
        cases m with
        | nil => exact List.nil_prefix
        | cons a m' =>
            rw [List.cons_append, List.cons_prefix_cons] at h
            rw [List.cons_prefix_cons]
            refine ⟨h.1, ih m' (fun x hx => hm x (List.mem_cons_of_mem a hx)) h.2⟩
  · intro h
    exact h.trans (List.prefix_append s ws)

/-- The characters of the PEM end marker are not whitespace. -/
theorem pemEndMarker_no_space : ∀ c ∈ pemEndMarker.data, ¬ pyIsSpace c = true := by
  decide

/-- The characters of the PEM begin marker are not whitespace. -/
theorem pemBeginMarker_no_space : ∀ c ∈ pemBeginMarker.data, ¬ pyIsSpace c = true := by
  decide

/-- The success bit of `_verify_pem_headers` is exactly the conjunction
tested by the source. -/
theorem verify_pem_headers_isOk (s : String) :
    (_verify_pem_headers s).isOk =
      (pyStartswith s pemBeginMarker && pyEndswith (pyStrip s) pemEndMarker) := by
  unfold _verify_pem_headers
  cases h : pyStartswith s pemBeginMarker && pyEndswith (pyStrip s) pemEndMarker <;>
    simp [h, Except.isOk, Except.toBool]

/-- `strip` and `rstrip` agree on the end-marker suffix test. -/
theorem endswith_strip_eq_rstrip (s : String) :
    pyEndswith (pyStrip s) pemEndMarker = pyEndswith (pyRstrip s) pemEndMarker := by
  unfold pyEndswith pyStrip pyRstrip pyStripL pyLstripL
  rcases h : pemEndMarker.data.isSuffixOf (pyRstripL s.data) with _ | _
  · rw [Bool.eq_false_iff]
    intro hcon
    rw [List.isSuffixOf_iff_suffix] at hcon
    rw [suffix_dropWhile_space_iff _ _ pemEndMarker_no_space] at hcon
    rw [← List.isSuffixOf_iff_suffix] at hcon
    simp [hcon] at h
  · rw [List.isSuffixOf_iff_suffix] at h ⊢
    rw [suffix_dropWhile_space_iff _ _ pemEndMarker_no_space]
    exact h

/-- Appending whitespace-only characters does not change a `startswith`
test against a whitespace-free marker. -/
theorem pyStartswith_append_space (s ws m : String)
    (hm : ∀ c ∈ m.data, ¬ pyIsSpace c = true)
    (hws : ws.data.all pyIsSpace = true) :
    pyStartswith (s ++ ws) m = pyStartswith s m := by
  unfold pyStartswith
  rw [Bool.eq_iff_iff, List.isPrefixOf_iff_prefix, List.isPrefixOf_iff_prefix,
    String.data_append]
  exact prefix_append_space_iff s.data ws.data m.data hm hws

/-- Appending whitespace-only characters does not change `rstrip`. -/
theorem pyRstrip_append_space (s ws : String)
    (hws : ws.data.all pyIsSpace = true) :
    pyRstrip (s ++ ws) = pyRstrip s := by
  unfold pyRstrip
  rw [String.data_append, pyRstripL_append_space _ _ hws]

/-- C2: for every string value of a secret PEM field, `_verify_pem_headers`
succeeds if and only if the value starts with the begin marker
`-----BEGIN` and, after trimming trailing whitespace, ends with the end
marker `-----END`; a value missing either marker fails with the fixed
`ValueError` message (pydantic attaches the field name to it), and
appending trailing whitespace to any value never changes the validation
outcome, so a well-formed PEM value with extra trailing whitespace still
passes. -/
theorem pem_validation_spec (s ws : String)
    (hws : ws.data.all pyIsSpace = true) :
    ((_verify_pem_headers s).isOk = true ↔
      (pyStartswith s pemBeginMarker = true ∧
        pyEndswith (pyRstrip s) pemEndMarker = true))
    ∧ ((pyStartswith s pemBeginMarker = false ∨
          pyEndswith (pyRstrip s) pemEndMarker = false) →
        _verify_pem_headers s =
          .error ("PEM key must start with \x27-----BEGIN\x27 and end with \x27-----END\x27."))
    ∧ (_verify_pem_headers (s ++ ws)).isOk = (_verify_pem_headers s).isOk := by
  have hiff : ∀ t : String, (_verify_pem_headers t).isOk =
      (pyStartswith t pemBeginMarker && pyEndswith (pyRstrip t) pemEndMarker) := by
    intro t
    rw [verify_pem_headers_isOk, endswith_strip_eq_rstrip]
  refine ⟨?_, ?_, ?_⟩
  · rw [hiff s]
    simp [Bool.and_eq_true]
  · intro h
    have hc : (pyStartswith s pemBeginMarker &&
        pyEndswith (pyStrip s) pemEndMarker) = false := by
      rw [endswith_strip_eq_rstrip]
      rcases h with h | h <;> simp [h]
    unfold _verify_pem_headers
    simp [hc]
  · rw [hiff, hiff, pyStartswith_append_space s ws pemBeginMarker pemBeginMarker_no_space hws,
      pyRstrip_append_space s ws hws]

/-- Witness for C2 at concrete inputs: a well-formed PEM value with
trailing whitespace passes, and a value missing both markers fails. -/
theorem pem_validation_spec_witness :
    (_verify_pem_headers ("-----BEGIN KEY-----END" ++ "\n  ")).isOk = true ∧
    (_verify_pem_headers ("no markers here")).isOk = false := by
  have h := pem_validation_spec ("-----BEGIN KEY-----END") ("\n  ") (by decide)
  refine ⟨?_, by decide⟩
  rw [h.2.2]
  decide

/-! ## `parse_env_sequence` (src/backend/app/core/config_sources.py, lines 12-31)

```python
def parse_env_sequence(value: str, *, is_hashset: bool = False) -> set[str] | list[str]:
    seq = [item.strip() for item in value.split(',') if item.strip()]
    if is_hashset:
        return set(seq)
    return seq
```

The identical helper `_parse_env_sequence` appears in
`src/app/core/config_sources.py`, lines 14-33.  The comprehension keeps an
element exactly when its stripped form is non-empty (Python truthiness),
and the kept element is that stripped form, so it equals a map followed by
a filter.  The `is_hashset=True` branch returns a Python `set`, modelled
as a `Finset`. -/

def parse_env_sequence (value : String) : List String :=
  ((pySplit value ',').map pyStrip).filter (fun x => x != "")

def parse_env_sequence_set (value : String) : Finset String :=
  (parse_env_sequence value).toFinset

/-- C4: coercing a string to sequence-of-string splits on commas, trims
each piece, drops empty pieces (every survivor is a non-empty stripped
comma piece), preserves order (the result is a sublist of the stripped
pieces), and retains duplicates (multiplicities of non-empty values are
unchanged by the emptiness filter); coercing the same string to
set-of-string yields exactly the same elements with duplicates removed. -/
theorem env_sequence_coercion_spec (v : String) :
    List.Sublist (parse_env_sequence v) ((pySplit v ',').map pyStrip)
    ∧ (∀ x ∈ parse_env_sequence v,
        x ≠ "" ∧ ∃ piece ∈ pySplit v ',', pyStrip piece = x)
    ∧ (∀ x : String, x ≠ "" →
        (parse_env_sequence v).count x = ((pySplit v ',').map pyStrip).count x)
    ∧ (∀ x : String, x ∈ parse_env_sequence_set v ↔ x ∈ parse_env_sequence v) := by
  refine ⟨List.filter_sublist _, ?_, ?_, ?_⟩
  · intro x hx
    rw [parse_env_sequence, List.mem_filter] at hx
    rcases hx with ⟨hmem, hne⟩
    refine ⟨by simpa using hne, ?_⟩
    rcases List.mem_map.mp hmem with ⟨piece, hp, rfl⟩
    exact ⟨piece, hp, rfl⟩
  · intro x hx
    rw [parse_env_sequence]
    rw [List.count_filter]
    simp [hx]
  · intro x
    rw [parse_env_sequence_set]
    exact List.mem_toFinset

/-- Witness for C4 at a concrete input with duplicates, surrounding
whitespace and an empty piece. -/
theorem env_sequence_coercion_spec_witness :
    parse_env_sequence (" a , b ,, a ,c ") = ["a", "b", "a", "c"] ∧
    (parse_env_sequence (" a , b ,, a ,c ")).count ("a") = 2 ∧
    parse_env_sequence_set (" a , b ,, a ,c ") = {"a", "b", "c"} := by
  have h := env_sequence_coercion_spec (" a , b ,, a ,c ")
  refine ⟨by decide, ?_, by decide⟩
  exact ((h.2.2.1 ("a") (by decide)).trans (by decide))

/-! ## `create_redis_url` (src/backend/app/core/secrets.py, lines 43-64)

```python
def create_redis_url(db=0, *, username=None, password=None, hostname, port=6379, ssl=False):
    if db < 0 or db > 15:
        raise ValueError("Redis database number must be between 0 and 15.")
    scheme = 'rediss' if ssl else 'redis'
    auth_part = ''
    if username and password:
        username = urllib.parse.quote_plus(username)
        password = urllib.parse.quote_plus(password)
        auth_part = f"{username}:{password}@"
    elif password:
        password = urllib.parse.quote_plus(password)
        auth_part = f":{password}@"
    return f"{scheme}://{auth_part}{hostname}:{port}/{db}"
```

`urllib.parse.quote_plus` keeps ASCII letters, digits and `_.-~`,
replaces a space by `+`, and percent-encodes every other byte of the
UTF-8 encoding with uppercase hex digits.  Python truthiness of an
optional string (`None` or empty is falsy) is `pyTruthyStr`. -/

/-- The characters `urllib.parse.quote` never encodes (its
`_ALWAYS_SAFE` set). -/
def quoteAlwaysSafe (c : Char) : Bool :=
  c.isAlpha || c.isDigit || c = '_' || c = '.' || c = '-' || c = '~'

def hexDigitsUpper : List Char := "0123456789ABCDEF".data

/-- `%XX` percent-escape of one byte, uppercase hex. -/
def percentEncodeByte (b : Nat) : List Char :=
  ['%', hexDigitsUpper.getD (b / 16) '0', hexDigitsUpper.getD (b % 16) '0']

/-- The UTF-8 byte sequence of one character. -/
def utf8Bytes (c : Char) : List Nat :=
  let n := c.toNat
  if n < 0x80 then [n]
  else if n < 0x800 then [0xC0 + n / 64, 0x80 + n % 64]
  else if n < 0x10000 then [0xE0 + n / 4096, 0x80 + (n / 64) % 64, 0x80 + n % 64]
  else [0xF0 + n / 262144, 0x80 + (n / 4096) % 64, 0x80 + (n / 64) % 64, 0x80 + n % 64]

/-- `urllib.parse.quote_plus`. -/
def pyQuotePlus (s : String) : String :=
  ⟨(s.data.map (fun c =>
      if quoteAlwaysSafe c then [c]
      else if c = ' ' then ['+']
      else ((utf8Bytes c).map percentEncodeByte).flatten)).flatten⟩

/-- Python truthiness of an optional string: `None` and `''` are falsy. -/
def pyTruthyStr : Option String → Bool
  | none => false
  | some s => s != ""

/-- The `auth_part` computed by `create_redis_url` (lines 56-63). -/
def redisAuthPart (username password : Option String) : String :=
  if pyTruthyStr username && pyTruthyStr password then
    pyQuotePlus (username.getD ("")) ++ (":") ++ pyQuotePlus (password.getD ("")) ++ ("@")
  else if pyTruthyStr password then
    (":") ++ pyQuotePlus (password.getD ("")) ++ ("@")
  else ("")

def create_redis_url (db : Int) (username password : Option String)
    (hostname : String) (port : Int) (ssl : Bool) : Except String String :=
  if db < 0 ∨ db > 15 then
    .error ("Redis database number must be between 0 and 15.")
  else
    .ok ((if ssl then ("rediss") else ("redis")) ++ ("://") ++
      redisAuthPart username password ++ hostname ++ (":") ++ toString port ++
      ("/") ++ toString db)

/-! ## `PortNumber` (src/backend/app/core/secrets.py, lines 35-39)

`PortNumber = Annotated[int, Field(ge=1, le=65535)]`; pydantic rejects a
value below `ge` or above `le` with a constraint error naming the bound. -/

def portNumberValidate (n : Int) : Except String Int :=
  if n < 1 then .error ("Input should be greater than or equal to 1")
  else if n > 65535 then .error ("Input should be less than or equal to 65535")
  else .ok n

/-! ### Lemmas about `quote_plus` output characters -/

theorem hexDigitsUpper_getD_mem (n : Nat) :
    hexDigitsUpper.getD n '0' ∈ hexDigitsUpper := by
  by_cases h : n < hexDigitsUpper.length
  · rw [List.getD_eq_getElem _ _ h]
    exact List.getElem_mem h
  · rw [List.getD_eq_default _ _ (Nat.le_of_not_lt h)]
    decide

/-- Every character that `quote_plus` emits is an always-safe character,
a plus sign, a percent sign, or an uppercase hex digit. -/
theorem pyQuotePlus_chars (s : String) :
    ∀ c ∈ (pyQuotePlus s).data,
      quoteAlwaysSafe c = true ∨ c = '+' ∨ c = '%' ∨ c ∈ hexDigitsUpper := by
  intro c hc
  unfold pyQuotePlus at hc
  rw [List.mem_flatten] at hc
  rcases hc with ⟨l, hl, hcl⟩
  rw [List.mem_map] at hl
  rcases hl with ⟨ch, _, rfl⟩
  by_cases h1 : quoteAlwaysSafe ch = true
  · rw [if_pos h1, List.mem_singleton] at hcl
    exact Or.inl (hcl ▸ h1)
  · rw [if_neg h1] at hcl
    by_cases h2 : ch = ' '
    · rw [if_pos h2, List.mem_singleton] at hcl
      exact Or.inr (Or.inl hcl)
    · rw [if_neg h2, List.mem_flatten] at hcl
      rcases hcl with ⟨pe, hpe, hcpe⟩
      rw [List.mem_map] at hpe
      rcases hpe with ⟨b, _, rfl⟩
      unfold percentEncodeByte at hcpe
      rw [List.mem_cons, List.mem_cons, List.mem_singleton] at hcpe
      rcases hcpe with rfl | rfl | rfl
      · exact Or.inr (Or.inr (Or.inl rfl))
      · exact Or.inr (Or.inr (Or.inr (hexDigitsUpper_getD_mem _)))
      · exact Or.inr (Or.inr (Or.inr (hexDigitsUpper_getD_mem _)))

/-- C6: a port value passes the `PortNumber` constraint exactly when it
lies in `[1, 65535]` (so `0` and `65536` fail while `1` and `65535` pass),
and `create_redis_url` succeeds exactly when the database index lies in
`[0, 15]`, every out-of-range index being rejected with the error message
naming the allowed range. -/
theorem port_and_db_range_spec (n db : Int) (u p : Option String)
    (hostname : String) (port : Int) (ssl : Bool) :
    ((portNumberValidate n).isOk = true ↔ (1 ≤ n ∧ n ≤ 65535))
    ∧ (portNumberValidate 0).isOk = false
    ∧ (portNumberValidate 65536).isOk = false
    ∧ (portNumberValidate 1).isOk = true
    ∧ (portNumberValidate 65535).isOk = true
    ∧ ((create_redis_url db u p hostname port ssl).isOk = true ↔
        (0 ≤ db ∧ db ≤ 15))
    ∧ ((db < 0 ∨ 15 < db) →
        create_redis_url db u p hostname port ssl =
          .error ("Redis database number must be between 0 and 15.")) := by
  refine ⟨?_, by decide, by decide, by decide, by decide, ?_, ?_⟩
  · unfold portNumberValidate
    split_ifs with h1 h2 <;> simp [Except.isOk, Except.toBool] <;> omega
  · unfold create_redis_url
    split_ifs with h <;> simp [Except.isOk, Except.toBool] <;> omega
  · intro h
    unfold create_redis_url
    rw [if_pos h]

/-- Witness for C6: database index `16` is rejected with the
range-naming message. -/
theorem port_and_db_range_spec_witness :
    create_redis_url 16 none none ("h") 6379 false =
      .error ("Redis database number must be between 0 and 15.") := by
  exact (port_and_db_range_spec 0 16 none none ("h") 6379 false).2.2.2.2.2.2
    (by omega)

/-- C7: `create_redis_url` percent-encodes the username and password via
`quote_plus`, so no character of the encoded credentials is one of the
URL-structural delimiters `:`, `@`, `/`, `?`, `#`; with both credentials
non-empty the authority part is exactly the encoded username, `:`, the
encoded password and `@`, and for an in-range database index the whole
URL is the deterministic template built from the inputs. -/
theorem redis_url_percent_encoding_spec (db : Int) (u p hostname : String)
    (port : Int) (ssl : Bool) (hu : u ≠ "") (hp : p ≠ "") :
    redisAuthPart (some u) (some p) =
      pyQuotePlus u ++ (":") ++ pyQuotePlus p ++ ("@")
    ∧ (∀ c : Char, (c ∈ (pyQuotePlus u).data ∨ c ∈ (pyQuotePlus p).data) →
        c ≠ ':' ∧ c ≠ '@' ∧ c ≠ '/' ∧ c ≠ '?' ∧ c ≠ '#')
    ∧ (0 ≤ db → db ≤ 15 →
        create_redis_url db (some u) (some p) hostname port ssl =
          .ok ((if ssl then ("rediss") else ("redis")) ++ ("://") ++
            (pyQuotePlus u ++ (":") ++ pyQuotePlus p ++ ("@")) ++
            hostname ++ (":") ++ toString port ++ ("/") ++ toString db)) := by
  have hauth : redisAuthPart (some u) (some p) =
      pyQuotePlus u ++ (":") ++ pyQuotePlus p ++ ("@") := by
    unfold redisAuthPart
    rw [if_pos]
    · rfl
    · simp [pyTruthyStr, bne_iff_ne, hu, hp]
  have key : ∀ c : Char,
      quoteAlwaysSafe c = true ∨ c = '+' ∨ c = '%' ∨ c ∈ hexDigitsUpper →
      c ≠ ':' ∧ c ≠ '@' ∧ c ≠ '/' ∧ c ≠ '?' ∧ c ≠ '#' := by
    rintro c (h | rfl | rfl | h)
    · refine ⟨?_, ?_, ?_, ?_, ?_⟩ <;> rintro rfl <;> exact absurd h (by decide)
    · decide
    · decide
    · refine ⟨?_, ?_, ?_, ?_, ?_⟩ <;> rintro rfl <;> exact absurd h (by decide)
  refine ⟨hauth, ?_, ?_⟩
  · rintro c (hc | hc)
    · exact key c (pyQuotePlus_chars u c hc)
    · exact key c (pyQuotePlus_chars p c hc)
  · intro h0 h15
    unfold create_redis_url
    rw [if_neg (by omega), hauth]

/-- Witness for C7 at concrete credentials containing `:`>`@`: the
structural characters come out percent-encoded. -/
theorem redis_url_percent_encoding_spec_witness :
    create_redis_url 0 (some ("a:b")) (some ("p@w")) ("h") 6379 false =
      .ok ("redis://a%3Ab:p%40w@h:6379/0") := by
  have h := redis_url_percent_encoding_spec 0 ("a:b") ("p@w") ("h") 6379 false
    (by decide) (by decide)
  rw [h.2.2 (by omega) (by omega)]
  exact congrArg Except.ok (by decide)

/-- C10: when the username is truthy but the password is `None` or empty,
`create_redis_url` emits no authority credentials at all (the username is
silently dropped), whereas a truthy password without a username is
emitted as `:password@`. -/
theorem redis_url_credential_cases_spec (u pwd : Option String) (db : Int)
    (hostname : String) (port : Int) (ssl : Bool)
    (hu : pyTruthyStr u = true) (hp : pyTruthyStr pwd = false) :
    redisAuthPart u pwd = ("")
    ∧ (0 ≤ db → db ≤ 15 →
        create_redis_url db u pwd hostname port ssl =
          .ok ((if ssl then ("rediss") else ("redis")) ++ ("://") ++
            hostname ++ (":") ++ toString port ++ ("/") ++ toString db))
    ∧ (∀ pw : String, pw ≠ "" →
        redisAuthPart none (some pw) = (":") ++ pyQuotePlus pw ++ ("@")) := by
  have hempty : redisAuthPart u pwd = ("") := by
    unfold redisAuthPart
    rw [if_neg, if_neg]
    · simp [hp]
    · simp [hu, hp]
  refine ⟨hempty, ?_, ?_⟩
  · intro h0 h15
    unfold create_redis_url
    rw [if_neg (by omega), hempty]
    simp
  · intro pw hpw
    unfold redisAuthPart
    rw [if_neg, if_pos]
    · rfl
    · simp [pyTruthyStr, bne_iff_ne, hpw]
    · simp [pyTruthyStr]

/-- Witness for C10: username `user` with empty password yields a URL with
no credentials; password alone yields `:pw@`. -/
theorem redis_url_credential_cases_spec_witness :
    create_redis_url 0 (some ("user")) (some ("")) ("h") 6379 false =
      .ok ("redis://h:6379/0") ∧
    redisAuthPart none (some ("pw")) = (":pw@") := by
  have h := redis_url_credential_cases_spec (some ("user")) (some ("")) 0
    ("h") 6379 false (by decide) (by decide)
  refine ⟨?_, ?_⟩
  · rw [h.2.1 (by omega) (by omega)]
    exact congrArg Except.ok (by decide)
  · rw [h.2.2 ("pw") (by decide)]
    decide

/-! ## Provider precedence (`settings_customise_sources`)

pydantic-settings resolves each field from the first source in the tuple
returned by `settings_customise_sources` that supplies it: earlier
sources have higher priority.  The five provider kinds of the spec map to
the five pydantic sources: StructuredFileProvider = the TOML source,
ExplicitOverrideProvider = `init_settings`, EnvironmentProvider =
`env_settings` / `_EnvSource`, DotenvFileProvider = `dotenv_settings`,
SecretDirectoryProvider = `file_secret_settings`. -/

inductive Provider where
  | structuredFile
  | explicitOverride
  | environment
  | dotenv
  | secretDirectory
  deriving DecidableEq

/-- `SecretTomlSettings.settings_customise_sources`
(src/backend/app/core/secrets.py, lines 174-199) returns
`(toml_source, init_settings, env_settings, dotenv_settings,
file_secret_settings)`. -/
def secretTomlSettingsSources : List Provider :=
  [.structuredFile, .explicitOverride, .environment, .dotenv, .secretDirectory]

/-- `EnvConfig.settings_customise_sources`
(src/app/core/config_sources.py, lines 82-96) returns
`(_EnvSource(settings_cls), init_settings, dotenv_settings,
file_secret_settings)`; there is no structured file source. -/
def envConfigSources : List Provider :=
  [.environment, .explicitOverride, .dotenv, .secretDirectory]

/-- `AppSettings.settings_customise_sources` (src/app/core/configs.py,
lines 77-98) returns `(toml_source, init_settings, env_settings,
dotenv_settings, file_secret_settings)`. -/
def appSettingsSources : List Provider :=
  [.structuredFile, .explicitOverride, .environment, .dotenv, .secretDirectory]

/-- `TomlConfig.settings_customise_sources`
(src/app/core/config_sources.py, lines 121-136) returns the same
file-first tuple as `AppSettings`. -/
def tomlConfigSources : List Provider :=
  [.structuredFile, .explicitOverride, .environment, .dotenv, .secretDirectory]

/-- Per-field resolution: walk the precedence list and take the value
from the first provider that supplies the field. -/
def resolveField (order : List Provider)
    (supplied : Provider → Option String) : Option String :=
  order.findSome? supplied

/-- A field assignment where both the structured file and the
environment supply a value. -/
def c1Assignment : Provider → Option String :=
  fun p =>
    match p with
    | .structuredFile => some ("file-value")
    | .environment => some ("env-value")
    | _ => none

/-- Counterexample to C1 as stated: `SecretTomlSettings` is a pure-secret
group (postgres, redis and jwt secrets), yet when both the
EnvironmentProvider and the StructuredFileProvider supply a field the
resolver returns the file value, not the environment value — the group
is file-first, so for it the EnvironmentProvider outranks neither the
StructuredFileProvider nor the ExplicitOverrideProvider. -/
theorem secret_group_env_first_counterexample :
    resolveField secretTomlSettingsSources c1Assignment = some ("file-value")
    ∧ c1Assignment .environment = some ("env-value")
    ∧ resolveField secretTomlSettingsSources c1Assignment ≠
        c1Assignment .environment := by
  decide

/-- C1 (amended): the TOML-backed secret group `SecretTomlSettings` and
the application settings groups `AppSettings` / `TomlConfig` are
file-first — a field supplied by the StructuredFileProvider resolves to
the file value no matter what every other provider (explicit overrides
included) supplies; the environment-variable secret group (`EnvConfig`,
used by `SecretSettings`) is environment-first — a field supplied by the
EnvironmentProvider resolves to the environment value no matter what the
other providers supply (that group has no structured file source). -/
theorem provider_precedence_spec (supplied : Provider → Option String)
    (v : String) :
    (supplied .structuredFile = some v →
      resolveField secretTomlSettingsSources supplied = some v)
    ∧ (supplied .structuredFile = some v →
      resolveField appSettingsSources supplied = some v)
    ∧ (supplied .structuredFile = some v →
      resolveField tomlConfigSources supplied = some v)
    ∧ (supplied .environment = some v →
      resolveField envConfigSources supplied = some v) := by
  refine ⟨?_, ?_, ?_, ?_⟩ <;> intro h <;>
    simp [resolveField, secretTomlSettingsSources, appSettingsSources,
      tomlConfigSources, envConfigSources, List.findSome?_cons, h]

/-- Witness for C1 (amended) at the concrete assignment: the file value
wins for the TOML-backed secret group, the environment value wins for
the env-backed secret group. -/
theorem provider_precedence_spec_witness :
    resolveField secretTomlSettingsSources c1Assignment = some ("file-value")
    ∧ resolveField envConfigSources c1Assignment = some ("env-value") := by
  exact ⟨(provider_precedence_spec c1Assignment ("file-value")).1 rfl,
    (provider_precedence_spec c1Assignment ("env-value")).2.2.2 rfl⟩

/-! ## The environment/file locator

`Path` existence checks and `glob` run against a directory that is
modelled by the list of its regular file names.  A name matches the glob
pattern `*.toml` exactly when it ends in `.toml`, and `app.*.toml`
exactly when it is `app.` ++ stem ++ `.toml` (`*` may match the empty
stem); `str(f)` of a matched path joins the directory with `/`. -/

deriving instance DecidableEq for Except

/-- `_get_directory_tomls` (src/backend/app/core/config_sources.py,
lines 80-83): `[str(f) for f in Path(dir).glob('*.toml') if f.is_file()]`
with the default pattern `*.toml`. -/
def _get_directory_tomls (dirname : String) (files : List String) :
    List String :=
  (files.filter (fun f => pyEndswith f (".toml"))).map
    (fun f => dirname ++ ("/") ++ f)

/-- `verify_toml_path` (src/backend/app/core/config_sources.py,
lines 86-114):

```python
path = Path(dirname) / filename
if not path.exists() or not path.is_file():
    known_files = _get_directory_tomls(dirname)
    raise FileNotFoundError(
        f'TOML file at {path} not found, known files of `{dirname}` are'
        f'{', '.join(known_files)}'
    )
return path
```
-/
def verify_toml_path (files : List String) (dirname filename : String) :
    Except String String :=
  if filename ∈ files then .ok (dirname ++ ("/") ++ filename)
  else
    .error (("TOML file at ") ++ dirname ++ ("/") ++ filename ++
      (" not found, known files of `") ++ dirname ++ ("` are") ++
      String.intercalate (", ") (_get_directory_tomls dirname files))

/-- The per-environment locator as its callers use it: the filename is
`{kind}.{environment}.toml` (src/backend/app/core/secrets.py, line 184:
`verify_toml_path('.secrets', f'secrets.{app_environment}.toml')`, and
src/app/core/configs.py, line 87:
`verify_toml_path('configs', f'config.{environment}.toml')`). -/
def locate_environment_file (files : List String)
    (dirname kind env : String) : Except String String :=
  verify_toml_path files dirname (kind ++ (".") ++ env ++ (".toml"))

/-- C5: the locator builds the path `{dirname}/{kind}.{environment}.toml`
and returns it when the file exists; when it does not, it fails with a
`FileNotFoundError` whose message names that path and lists every
sibling file of the directory matching the `*.toml` pattern. -/
theorem locate_file_spec (files : List String) (dirname kind env : String) :
    ((kind ++ (".") ++ env ++ (".toml")) ∈ files →
      locate_environment_file files dirname kind env =
        .ok (dirname ++ ("/") ++ (kind ++ (".") ++ env ++ (".toml"))))
    ∧ ((kind ++ (".") ++ env ++ (".toml")) ∉ files →
      locate_environment_file files dirname kind env =
        .error (("TOML file at ") ++ dirname ++ ("/") ++
          (kind ++ (".") ++ env ++ (".toml")) ++
          (" not found, known files of `") ++ dirname ++ ("` are") ++
          String.intercalate (", ")
            ((files.filter (fun f => pyEndswith f (".toml"))).map
              (fun f => dirname ++ ("/") ++ f)))) := by
  constructor
  · intro h
    unfold locate_environment_file verify_toml_path
    rw [if_pos h]
  · intro h
    unfold locate_environment_file verify_toml_path _get_directory_tomls
    rw [if_neg h]

/-- Witness for C5, the spec scenario: requesting environment `staging`
when only the development and production secrets files exist fails with
a message listing exactly those two files. -/
theorem locate_file_spec_witness :
    locate_environment_file
      ["secrets.development.toml", "secrets.production.toml"]
      (".secrets") ("secrets") ("staging") =
      .error ("TOML file at .secrets/secrets.staging.toml not found, known files of `.secrets` are.secrets/secrets.development.toml, .secrets/secrets.production.toml") := by
  rw [(locate_file_spec ["secrets.development.toml", "secrets.production.toml"]
    (".secrets") ("secrets") ("staging")).2 (by decide)]
  decide

/-! ## `_EnvSource.prepare_field_value` (src/app/core/config_sources.py, lines 42-55)

```python
field_origin = get_origin(field.annotation)
is_hashset = field_origin is set
if field_origin is list or is_hashset:
    return _parse_env_sequence(value, is_hashset=is_hashset)
return super().prepare_field_value(field_name, field, value, value_is_complex)
```

The declared shapes of the fields of the settings groups in
src/app/core/settings.py are scalars (`str`, `int`, `bool`),
`list[str]`, `set[str]` and nested `TomlSection` models;
`typing.get_origin` yields `list` for `list[str]`, `set` for `set[str]`
and no generic origin for the rest, and the base-class
`prepare_field_value` hands a matched environment value on as the plain
string for the schema layer to coerce later. -/

inductive FieldShape where
  | scalarString
  | scalarInt
  | scalarBool
  | listString
  | setString
  | nestedSection
  deriving DecidableEq

inductive TypeOrigin where
  | list
  | set
  | notGeneric
  deriving DecidableEq

/-- `typing.get_origin` on the declared annotation of a field. -/
def get_origin : FieldShape → TypeOrigin
  | .listString => .list
  | .setString => .set
  | _ => .notGeneric

inductive PreparedValue where
  | coercedList (l : List String)
  | coercedSet (s : Finset String)
  | raw (s : String)
  deriving DecidableEq

def prepare_field_value (shape : FieldShape) (value : String) :
    PreparedValue :=
  match get_origin shape with
  | .list => .coercedList (parse_env_sequence value)
  | .set => .coercedSet (parse_env_sequence_set value)
  | .notGeneric => .raw value

/-- Whether the sequence/scalar coercer ran. -/
def isSequenceCoerced : PreparedValue → Bool
  | .coercedList _ => true
  | .coercedSet _ => true
  | .raw _ => false

/-- C8: the environment source applies the comma-splitting coercer to a
matched value exactly when the destination field's declared shape is
sequence-of-string or set-of-string; scalar and nested-section values
pass through unchanged as plain strings. -/
theorem env_source_coercion_spec (shape : FieldShape) (value : String) :
    (isSequenceCoerced (prepare_field_value shape value) = true ↔
      (shape = .listString ∨ shape = .setString))
    ∧ (shape ≠ .listString → shape ≠ .setString →
        prepare_field_value shape value = .raw value) := by
  cases shape <;> simp [prepare_field_value, get_origin, isSequenceCoerced]

/-- Witness for C8: a scalar field passes through unchanged while a
`list[str]` field is coerced. -/
theorem env_source_coercion_spec_witness :
    prepare_field_value .scalarString ("a,b") = .raw ("a,b")
    ∧ isSequenceCoerced (prepare_field_value .listString ("a,b")) = true := by
  exact ⟨(env_source_coercion_spec .scalarString ("a,b")).2
      (by decide) (by decide),
    (env_source_coercion_spec .listString ("a,b")).1.mpr (Or.inl rfl)⟩

/-! ## `get_app_settings` (src/app/core/settings.py, lines 102-120)

```python
def know_app_settings() -> list[str]:
    config_dir = Path('configs')
    return [str(f) for f in config_dir.glob('app.*.toml') if f.is_file()]

@functools.lru_cache
def get_app_settings(*, environment: str | None = None) -> AppSettings:
    if not environment:
        environment = os.getenv('ENVIRONMENT', 'development')
    toml_file_path = os.path.join('configs', f'{environment}.toml')
    if not os.path.exists(toml_file_path):
        known_files = know_app_settings()
        raise FileNotFoundError(
            f"Configuration file {toml_file_path} not found, "
            f"known files: {', '.join(known_files)}"
        )
    return AppSettings(_toml_file=f'configs/app.{environment}.toml')
```

The `configs` directory is modelled by the list of its regular file
names and the environment name is taken as already determined (the
`lru_cache` wrapper and the `ENVIRONMENT` fallback are orthogonal to the
path mismatch).  On success the embedding returns the path handed to the
TOML source. -/

def know_app_settings (files : List String) : List String :=
  (files.filter (fun f =>
      pyStartswith f ("app.") && pyEndswith (⟨f.data.drop 4⟩) (".toml"))).map
    (fun f => ("configs/") ++ f)

def get_app_settings (files : List String) (environment : String) :
    Except String String :=
  if (environment ++ (".toml")) ∈ files then
    .ok (("configs/app.") ++ environment ++ (".toml"))
  else
    .error (("Configuration file configs/") ++ environment ++
      (".toml not found, known files: ") ++
      String.intercalate (", ") (know_app_settings files))

/-- C9: `get_app_settings` checks `configs/{e}.toml` for existence but
loads `configs/app.{e}.toml`, and its diagnostic globs `app.*.toml`:
there is a filesystem state where the loaded file exists yet the getter
raises `FileNotFoundError` (whose listing even names the file the loader
would have used), and a state where the existence check passes while the
actually-loaded file is absent. -/
theorem settings_path_mismatch_spec :
    (("app.development.toml") ∈ (["app.development.toml"] : List String)
      ∧ get_app_settings ["app.development.toml"] ("development") =
          .error ("Configuration file configs/development.toml not found, known files: configs/app.development.toml"))
    ∧ (("development.toml") ∈ (["development.toml"] : List String)
      ∧ get_app_settings ["development.toml"] ("development") =
          .ok ("configs/app.development.toml")
      ∧ ("app.development.toml") ∉ (["development.toml"] : List String)) := by
  decide

end FastapiBackendTemplate
